import Mathlib

/-!
Verification of the qsfs-fuse core against its natural-language specification.

The development shallowly embeds the relevant parts of the source:

* `FileMetaData` and its constructor, `FileMetaData.fileAccess`
  (src/src/data/FileMetaData.cpp);
* `RetryStrategy.shouldRetry` and
  `RetryStrategy.calculateDelayBeforeNextRetry`
  (src/src/client/RetryStrategy.cpp);
* the `Drive` facade operations `readFile`, `writeFile`, `deleteDir`,
  `makeFile` (Drive.cpp).  Stateful operations are modelled as pure
  functions from the looked-up node/cache state to a result record that
  carries the return value, the updated node and the object-store calls
  issued, so that every claim about issued effects is a statement about
  the result record.

Machine integers are modelled as `Nat` with explicit `% 2 ^ 64` where the
C++ unsigned arithmetic can wrap.  Code of the repository that is not in
the provided sources (QS::Utils::AppendPathDelim, Cache::Read) is modelled
from the specification; each such definition is marked in its doc comment.
-/

/-! ## POSIX constants (Linux values, as used by the C++ sources) -/

def F_OK : Nat := 0
def X_OK : Nat := 1
def W_OK : Nat := 2
def R_OK : Nat := 4

def S_IRUSR : Nat := 0o400
def S_IWUSR : Nat := 0o200
def S_IXUSR : Nat := 0o100
def S_IRGRP : Nat := 0o040
def S_IWGRP : Nat := 0o020
def S_IXGRP : Nat := 0o010
def S_IROTH : Nat := 0o004
def S_IWOTH : Nat := 0o002
def S_IXOTH : Nat := 0o001

def S_IFIFO : Nat := 0o010000
def S_IFCHR : Nat := 0o020000
def S_IFDIR : Nat := 0o040000
def S_IFBLK : Nat := 0o060000
def S_IFREG : Nat := 0o100000
def S_IFLNK : Nat := 0o120000
def S_IFSOCK : Nat := 0o140000

/-! ## Path helpers -/

/-- Whether a path's last character is the path delimiter. -/
def pathEndsWithDelim (p : String) : Bool := p.data.getLast? = some '/'

/-- Modelled from the spec: `QS::Utils::AppendPathDelim` (base/Utils.cpp is
not among the provided sources).  Per the spec, directory paths are
normalized by appending a trailing slash when it is absent. -/
def appendPathDelim (p : String) : String :=
  if pathEndsWithDelim p then p else p ++ "/"

theorem pathEndsWithDelim_appendPathDelim (p : String) :
    pathEndsWithDelim (appendPathDelim p) = true := by
  unfold appendPathDelim
  by_cases h : pathEndsWithDelim p
  · simp [h]
  · simp [h]
    unfold pathEndsWithDelim
    have hd : (p ++ "/").data = p.data ++ ['/'] := rfl
    rw [hd, List.getLast?_concat]
    rfl

/-! ## FileMetaData (src/src/data/FileMetaData.cpp) -/

inductive FileType where
  | File
  | Directory
  | SymLink
  | Block
  | Character
  | FIFO
  | Socket
deriving Repr, DecidableEq

/-- The fields of `QS::Data::FileMetaData`. -/
structure FileMetaData where
  filePath : String
  fileSize : Nat
  atime : Int
  mtime : Int
  ctime : Int
  cachedTime : Int
  uid : Nat
  gid : Nat
  fileMode : Nat
  fileType : FileType
  mimeType : String
  eTag : String
  encrypted : Bool
  dev : Nat
  numLink : Nat
  dirty : Bool
  write : Bool
  fileOpen : Bool
  pendingGet : Bool
  pendingCreate : Bool
deriving Repr, DecidableEq

/-- The `FileMetaData` constructor (FileMetaData.cpp, lines 69-97): the
member initializer list sets `ctime := mtime` and `cachedTime := atime`,
the body sets the link count to 2 for directories and 1 otherwise, and
appends the path delimiter to a directory path. -/
def FileMetaData.construct (filePath : String) (fileSize : Nat)
    (atime mtime : Int) (uid gid : Nat) (fileMode : Nat)
    (fileType : FileType) (mimeType eTag : String) (encrypted : Bool)
    (dev : Nat) : FileMetaData :=
  { filePath := if fileType = FileType.Directory then appendPathDelim filePath
                else filePath
    fileSize := fileSize
    atime := atime
    mtime := mtime
    ctime := mtime
    cachedTime := atime
    uid := uid
    gid := gid
    fileMode := fileMode
    fileType := fileType
    mimeType := mimeType
    eTag := eTag
    encrypted := encrypted
    dev := dev
    numLink := if fileType = FileType.Directory then 2 else 1
    dirty := false
    write := false
    fileOpen := false
    pendingGet := false
    pendingCreate := false }

/-- `FileMetaData::FileAccess` (FileMetaData.cpp, lines 190-258),
transcribed branch for branch.  Note that the execute-permission block of
the source is gated by `amode & W_OK`, exactly as in the C++. -/
def FileMetaData.fileAccess (m : FileMetaData) (uid gid : Nat)
    (amode : Nat) : Bool :=
  if m.filePath = "" then false
  else if amode &&& F_OK ≠ 0 then true
  else if amode &&& R_OK ≠ 0 then
    if (uid = m.uid ∨ uid = 0) ∧ m.fileMode &&& S_IRUSR ≠ 0 then true
    else if (gid = m.gid ∨ gid = 0) ∧ m.fileMode &&& S_IRGRP ≠ 0 then true
    else if m.fileMode &&& S_IROTH ≠ 0 then true
    else false
  else if amode &&& W_OK ≠ 0 then
    if (uid = m.uid ∨ uid = 0) ∧ m.fileMode &&& S_IWUSR ≠ 0 then true
    else if (gid = m.gid ∨ gid = 0) ∧ m.fileMode &&& S_IWGRP ≠ 0 then true
    else if m.fileMode &&& S_IWOTH ≠ 0 then true
    else false
  else if amode &&& W_OK ≠ 0 then
    if uid = 0 ∧ (m.fileMode &&& S_IXUSR ≠ 0 ∨ m.fileMode &&& S_IXGRP ≠ 0 ∨
        m.fileMode &&& S_IXOTH ≠ 0) then true
    else if uid = m.uid ∧ m.fileMode &&& S_IXUSR ≠ 0 then true
    else if gid = m.gid ∧ m.fileMode &&& S_IXGRP ≠ 0 then true
    else if m.fileMode &&& S_IXOTH ≠ 0 then true
    else false
  else false

/-! ## RetryStrategy (src/src/client/RetryStrategy.cpp) -/

/-- A client error; `retryable` is the value of
`ClientError<QSError>::ShouldRetry()` for this error. -/
structure ClientError where
  retryable : Bool
deriving Repr, DecidableEq

structure RetryStrategy where
  maxRetryTimes : Nat
  scaleFactor : Nat
deriving Repr, DecidableEq

/-- `RetryStrategy::ShouldRetry` (RetryStrategy.cpp, lines 26-29). -/
def RetryStrategy.shouldRetry (s : RetryStrategy) (error : ClientError)
    (attemptedRetryTimes : Nat) : Bool :=
  if attemptedRetryTimes ≥ s.maxRetryTimes then false else error.retryable

/-- `RetryStrategy::CalculateDelayBeforeNextRetry` (RetryStrategy.cpp,
lines 31-35); the return type is `uint32_t`, so the product is reduced
modulo `2 ^ 32`. -/
def RetryStrategy.calculateDelayBeforeNextRetry (s : RetryStrategy)
    (error : ClientError) (attemptedRetryTimes : Nat) : Nat :=
  if attemptedRetryTimes = 0 then 0
  else (1 <<< attemptedRetryTimes) * s.scaleFactor % 2 ^ 32

/-- `Retry::DefaultScaleFactor` (RetryStrategy.h). -/
def defaultScaleFactor : Nat := 25

/-! ## Drive facade (Drive.cpp)

Each `Drive` operation is modelled as a pure function of the node found by
`Drive::GetNode` for the operation's path (an `Option Node`: `none` models
a null node pointer) together with oracles for the components whose
outcome the source only branches on (`m_cache->HasFileData`,
`m_cache->Write` success, the transfer handle being non-null, the client
call succeeding).  The result records carry the returned value, the node
state after the call and the object-store calls issued. -/

/-- The projection of `QS::Data::Node` used by the Drive operations:
`valid` is the node's `operator bool` (`*node`), the remaining fields are
the accessors the Drive code reads and the setters it writes. -/
structure Node where
  valid : Bool
  isDirectory : Bool
  isEmpty : Bool
  fileSize : Nat
  fileOpen : Bool
  needUpload : Bool
deriving Repr, DecidableEq

def pow64 : Nat := 2 ^ 64

/-- Modelled from the spec: `Cache::Read` (src/data/Cache.cpp is not among
the provided sources).  Per the spec it copies the requested range from
the cached pages of the file and returns the bytes actually produced,
which is the part of `[offset, offset + len)` lying within
`[0, fileSize)`. -/
def cacheRead (fileSize offset len : Nat) : Nat :=
  min len (fileSize - offset)

/-- The outcome of `Drive::ReadFile`: the returned byte count, the
synchronous `TransferManager::DownloadFile` request issued (offset and
length), the `m_cache->Write` performed with the downloaded stream, and
whether the asynchronous download of the remaining unloaded ranges was
scheduled. -/
structure ReadFileResult where
  ret : Nat
  syncDownload : Option (Nat × Nat)
  cacheWrite : Option (Nat × Nat)
  asyncRangeDownload : Bool
deriving Repr, DecidableEq

/-- `Drive::ReadFile` (Drive.cpp, lines 751-820).  `pathEmpty`/`bufNull`
model `filePath.empty()` and `buf == nullptr`; `modified` is the flag
returned by `GetNode`; `fileContentExist` is `m_cache->HasFileData(path,
offset, size)`; `handleOk` is the non-nullness of the download handle;
`maxCache` is `GetMaxFileCacheSize()`.  `downloadSize = fileSize - offset`
is computed in `uint64_t`, hence the explicit wrap-around.  When the node
pointer is null and `doCheck` is off the C++ dereferences a null pointer;
that unreachable case is modelled as returning 0 with no effect. -/
def Drive.readFile (maxCache : Nat) (pathEmpty bufNull doCheck : Bool)
    (node? : Option Node) (modified : Bool) (offset size : Nat)
    (fileContentExist handleOk : Bool) : ReadFileResult :=
  if doCheck && (pathEmpty || bufNull) then ⟨0, none, none, false⟩
  else if size > maxCache then ⟨0, none, none, false⟩
  else
    match node? with
    | none => ⟨0, none, none, false⟩
    | some node =>
      if doCheck && (!node.valid || node.isDirectory) then
        ⟨0, none, none, false⟩
      else
        let fileSize := node.fileSize
        let downloadSize : Nat :=
          if (offset + size) % pow64 > fileSize then
            (fileSize + pow64 - offset) % pow64
          else size
        let remainingSize : Nat :=
          if (offset + size) % pow64 > fileSize then 0
          else fileSize - (offset + size)
        let doDownload := !fileContentExist || modified
        { ret := cacheRead fileSize offset downloadSize
          syncDownload := if doDownload then some (offset, downloadSize)
                          else none
          cacheWrite := if doDownload && handleOk then
                          some (offset, downloadSize)
                        else none
          asyncRangeDownload := decide (remainingSize > 0) }

/-- The outcome of `Drive::WriteFile`: the returned byte count, the node
after the call and whether `m_cache->Write` was invoked. -/
structure WriteFileResult where
  ret : Nat
  node? : Option Node
  cacheWriteCalled : Bool
deriving Repr, DecidableEq

/-- `Drive::WriteFile` (Drive.cpp, lines 1030-1094).  `cacheWriteOk` is
the success of `m_cache->Write(filePath, offset, size, buf, time)`.  When
the node pointer is null and `doCheck` is off the C++ dereferences a null
pointer; that unreachable case is modelled as returning 0 with no
effect. -/
def Drive.writeFile (maxCache : Nat) (pathEmpty bufNull doCheck : Bool)
    (node? : Option Node) (offset size : Nat) (cacheWriteOk : Bool) :
    WriteFileResult :=
  if doCheck && (pathEmpty || bufNull) then ⟨0, node?, false⟩
  else if size > maxCache then ⟨0, node?, false⟩
  else
    match node? with
    | none => ⟨0, none, false⟩
    | some node =>
      if doCheck && (!node.valid || node.isDirectory) then
        ⟨0, some node, false⟩
      else if !node.fileOpen then ⟨0, some node, false⟩
      else if cacheWriteOk then
        ⟨size,
         some { node with
                  needUpload := true
                  fileSize := if offset + size > node.fileSize then
                                offset + size
                              else node.fileSize },
         true⟩
      else ⟨0, some node, true⟩

/-- `Drive::DeleteDir` (Drive.cpp, lines 594-626).  The result is the
asynchronous `Client::DeleteDirectory(path, recursive)` call submitted to
the executor, if any: `some (path, recursive)` when the delete was issued,
`none` when the operation returned early. -/
def Drive.deleteDir (dirPath : String) (recursive doCheck : Bool)
    (node? : Option Node) : Option (String × Bool) :=
  if dirPath = "" then none
  else
    let path := appendPathDelim dirPath
    if doCheck then
      match node? with
      | none => none
      | some node =>
        if !node.valid then none
        else if !node.isDirectory then none
        else if !node.isEmpty then none
        else some (path, recursive)
    else some (path, recursive)

/-- The outcome of `Drive::MakeFile`: whether the synchronous
`Client::MakeFile` was issued, whether the asynchronous `Client::Stat`
refresh was submitted, and the file type grown locally into the directory
tree, if any. -/
structure MakeFileResult where
  clientMakeFile : Bool
  asyncStat : Bool
  grownLocally : Option FileType
deriving Repr, DecidableEq

/-- `Drive::MakeFile` (Drive.cpp, lines 640-686).  The file type is
derived from `mode` by the source's chain of bitwise-and tests;
`makeFileOk` is `IsGoodQSError` of the `Client::MakeFile` result. -/
def Drive.makeFile (filePath : String) (mode : Nat) (makeFileOk : Bool) :
    MakeFileResult :=
  if filePath = "" then ⟨false, false, none⟩
  else
    let type? : Option FileType :=
      if mode &&& S_IFREG ≠ 0 then some FileType.File
      else if mode &&& S_IFBLK ≠ 0 then some FileType.Block
      else if mode &&& S_IFCHR ≠ 0 then some FileType.Character
      else if mode &&& S_IFIFO ≠ 0 then some FileType.FIFO
      else if mode &&& S_IFSOCK ≠ 0 then some FileType.Socket
      else none
    match type? with
    | none => ⟨false, false, none⟩
    | some FileType.File =>
        if makeFileOk then ⟨true, true, none⟩ else ⟨true, false, none⟩
    | some t => ⟨false, false, some t⟩

/-! ## Claims -/

/-- C1: in `FileMetaData::FileAccess` the execute-permission branch is
gated by `amode & W_OK` instead of `amode & X_OK`, so for every uid, gid
and access mode with `X_OK` set and `F_OK`, `R_OK`, `W_OK` all clear the
predicate returns `false` for every file, whatever its mode bits: the
`S_IXUSR`/`S_IXGRP`/`S_IXOTH` checks are unreachable for such a mode. -/
theorem fileAccess_execute_gated_by_wok (m : FileMetaData)
    (uid gid amode : Nat) (_hx : amode &&& X_OK ≠ 0)
    (hf : amode &&& F_OK = 0) (hr : amode &&& R_OK = 0)
    (hw : amode &&& W_OK = 0) :
    m.fileAccess uid gid amode = false := by
  unfold FileMetaData.fileAccess
  simp [hf, hr, hw]

/-- Witness for C1: a file owned by root with mode 0777 (all execute bits
set) still fails an `X_OK`-only access check by root itself. -/
theorem fileAccess_execute_gated_by_wok_witness :
    (FileMetaData.construct "/a" 0 0 0 0 0 0o777 FileType.File "" "" false
      0).fileAccess 0 0 X_OK = false :=
  fileAccess_execute_gated_by_wok _ 0 0 X_OK (by decide) (by decide)
    (by decide) (by decide)

/-- C2 counterexample: the claim says the delay before the retry with
`attemptedRetryTimes = 0` is `(1 << 0) * scaleFactor = scaleFactor`, but
`CalculateDelayBeforeNextRetry` returns 0 for the first retry (using the
default scale factor 25 and `maxRetries = 3`). -/
theorem calculateDelay_first_attempt_counterexample :
    (RetryStrategy.mk 3 defaultScaleFactor).calculateDelayBeforeNextRetry
      (ClientError.mk true) 0 ≠ 1 <<< 0 * defaultScaleFactor := by decide

/-- C2 (amended): the delay before the first retry
(`attemptedRetryTimes = 0`) is 0, and for every `attemptedRetryTimes ≥ 1`
the delay is `(1 << attempt) * scaleFactor` milliseconds (reduced modulo
`2 ^ 32`, the width of the returned `uint32_t`); in particular the three
successive retry delays with `maxRetries = 3` are 0, 2x and 4x of
`scaleFactor`, not 1x, 2x, 4x. -/
theorem calculateDelay_zero_then_exponential (s : RetryStrategy)
    (e : ClientError) :
    s.calculateDelayBeforeNextRetry e 0 = 0 ∧
    (∀ n, 1 ≤ n → s.calculateDelayBeforeNextRetry e n =
      (1 <<< n) * s.scaleFactor % 2 ^ 32) ∧
    s.calculateDelayBeforeNextRetry e 1 = 2 * s.scaleFactor % 2 ^ 32 ∧
    s.calculateDelayBeforeNextRetry e 2 = 4 * s.scaleFactor % 2 ^ 32 := by
  refine ⟨rfl, ?_, ?_, ?_⟩
  · intro n hn
    have h : n ≠ 0 := by omega
    simp [RetryStrategy.calculateDelayBeforeNextRetry, h]
  · simp [RetryStrategy.calculateDelayBeforeNextRetry, Nat.shiftLeft_eq]
  · simp [RetryStrategy.calculateDelayBeforeNextRetry, Nat.shiftLeft_eq]

/-- Witness for C2: the delay formula evaluated at a concrete attempt
count, through the amended theorem. -/
theorem calculateDelay_zero_then_exponential_witness :
    (RetryStrategy.mk 3 25).calculateDelayBeforeNextRetry
      (ClientError.mk true) 3 = (1 <<< 3) * 25 % 2 ^ 32 :=
  (calculateDelay_zero_then_exponential (RetryStrategy.mk 3 25)
    (ClientError.mk true)).2.1 3 (by decide)

/-- C3: `RetryStrategy::ShouldRetry(e, n)` returns true exactly when the
attempted retry count is below `maxRetryTimes` and the error is retryable;
hence a non-retryable error is never retried and no error is retried once
`maxRetryTimes` attempts have been made. -/
theorem shouldRetry_iff (s : RetryStrategy) (e : ClientError) (n : Nat) :
    s.shouldRetry e n = true ↔ n < s.maxRetryTimes ∧ e.retryable = true := by
  unfold RetryStrategy.shouldRetry
  by_cases h : s.maxRetryTimes ≤ n
  · simp only [ge_iff_le, if_pos h]
    constructor
    · intro hc
      simp at hc
    · intro hc
      exact absurd hc.1 (by omega)
  · simp only [ge_iff_le, if_neg h]
    constructor
    · intro hc
      exact ⟨by omega, hc⟩
    · intro hc
      exact hc.2


/-- Witness for C3: one attempt below the limit on a retryable error is
retried. -/
theorem shouldRetry_iff_witness :
    (RetryStrategy.mk 3 25).shouldRetry (ClientError.mk true) 1 = true :=
  (shouldRetry_iff (RetryStrategy.mk 3 25) (ClientError.mk true) 1).mpr
    (by decide)

/-- C4 counterexample: for a file of size 10 (EOF = 10), a read of size 20
at offset 5 returns the clamped 5 bytes, not
`max(0, size − (offset − EOF)) = max(0, 20 − (5 − 10)) = 25` as the claim
states. -/
theorem readFile_eof_formula_counterexample :
    ((Drive.readFile 16384 false false true
        (some (Node.mk true false false 10 true false)) false 5 20 false
        true).ret : Int) ≠ max 0 (20 - (5 - 10)) := by decide

/-- C4 (amended): a range read past EOF is clamped to EOF.  With an
existing non-directory node of size `EOF` and `offset + size > EOF`, the
returned byte count is `EOF − offset` truncated at 0 (that is,
`max(0, min(size, EOF − offset))`, not `max(0, size − (offset − EOF))`),
and when additionally `offset ≤ EOF` and the range is not cached, the
synchronously downloaded (and read) size becomes `EOF − offset`.  The
subtraction `fileSize - offset` is performed by the source in `uint64_t`,
so for `offset > EOF` the download size wraps around; the cache read still
produces 0 bytes there. -/
theorem readFile_clamped_to_eof (maxCache : Nat)
    (pathEmpty bufNull doCheck : Bool) (n : Node) (modified : Bool)
    (offset size : Nat) (fileContentExist handleOk : Bool)
    (hck : (doCheck && (pathEmpty || bufNull)) = false)
    (hsz : size ≤ maxCache)
    (hnode : (doCheck && (!n.valid || n.isDirectory)) = false)
    (hb : offset + size < pow64) (hfs : n.fileSize < pow64)
    (hpast : offset + size > n.fileSize) :
    (Drive.readFile maxCache pathEmpty bufNull doCheck (some n) modified
        offset size fileContentExist handleOk).ret = n.fileSize - offset ∧
    ((Drive.readFile maxCache pathEmpty bufNull doCheck (some n) modified
        offset size fileContentExist handleOk).ret : Int) =
      max 0 (min (size : Int) ((n.fileSize : Int) - (offset : Int))) ∧
    (offset ≤ n.fileSize → fileContentExist = false →
      (Drive.readFile maxCache pathEmpty bufNull doCheck (some n) modified
          offset size fileContentExist handleOk).syncDownload =
        some (offset, n.fileSize - offset)) := by
  have h1 : ¬ (size > maxCache) := by omega
  have h2 : (offset + size) % pow64 = offset + size := Nat.mod_eq_of_lt hb
  have hdsz : offset ≤ n.fileSize →
      (n.fileSize + pow64 - offset) % pow64 = n.fileSize - offset := by
    intro hle
    have he : n.fileSize + pow64 - offset = (n.fileSize - offset) + pow64 := by
      omega
    rw [he, Nat.add_mod_right]
    exact Nat.mod_eq_of_lt (by omega)
  have hret : (Drive.readFile maxCache pathEmpty bufNull doCheck (some n)
      modified offset size fileContentExist handleOk).ret
      = n.fileSize - offset := by
    simp [Drive.readFile, hck, hnode, h1, h2, hpast, cacheRead]
    rcases Nat.le_total offset n.fileSize with hle | hle
    · rw [hdsz hle]
      omega
    · omega
  refine ⟨hret, ?_, ?_⟩
  · rw [hret]
    omega
  · intro hle hfc
    simp [Drive.readFile, hck, hnode, h1, h2, hpast, hfc, hdsz hle]

/-- Witness for C4: the amended clamping theorem evaluated at EOF = 10,
offset = 5, size = 20. -/
theorem readFile_clamped_to_eof_witness :
    (Drive.readFile 16384 false false true
        (some (Node.mk true false false 10 true false)) false 5 20 false
        true).ret = 10 - 5 ∧
    (Drive.readFile 16384 false false true
        (some (Node.mk true false false 10 true false)) false 5 20 false
        true).syncDownload = some (5, 10 - 5) :=
  ⟨(readFile_clamped_to_eof 16384 false false true
      (Node.mk true false false 10 true false) false 5 20 false true
      (by decide) (by decide) (by decide) (by decide) (by decide)
      (by decide)).1,
   (readFile_clamped_to_eof 16384 false false true
      (Node.mk true false false 10 true false) false 5 20 false true
      (by decide) (by decide) (by decide) (by decide) (by decide)
      (by decide)).2.2 (by decide) (by decide)⟩

/-- C5: `Drive::WriteFile` on a node that is not open returns 0 without
invoking the cache write and leaves the node unchanged; on an open node
whose cache write succeeds it marks the node as needing upload, sets the
node's file size to `offset + size` exactly when that exceeds the current
file size (otherwise the size is unchanged), and returns `size`. -/
theorem writeFile_spec (maxCache : Nat) (pathEmpty bufNull doCheck : Bool)
    (n : Node) (offset size : Nat) (cacheWriteOk : Bool) :
    (n.fileOpen = false →
      Drive.writeFile maxCache pathEmpty bufNull doCheck (some n) offset
        size cacheWriteOk = ⟨0, some n, false⟩) ∧
    ((doCheck && (pathEmpty || bufNull)) = false → size ≤ maxCache →
     (doCheck && (!n.valid || n.isDirectory)) = false →
     n.fileOpen = true → cacheWriteOk = true →
      Drive.writeFile maxCache pathEmpty bufNull doCheck (some n) offset
        size cacheWriteOk
        = ⟨size,
           some { n with
                    needUpload := true
                    fileSize := if offset + size > n.fileSize then
                                  offset + size
                                else n.fileSize },
           true⟩) := by
  constructor
  · intro hopen
    unfold Drive.writeFile
    split
    · rfl
    · split
      · rfl
      · simp [hopen]
  · intro hck hsz hnode hopen hcw
    have h1 : ¬ (size > maxCache) := by omega
    simp [Drive.writeFile, hck, h1, hnode, hopen, hcw]

/-- Witness for C5: both branches of the theorem at concrete inputs — a
closed write on a size-3 file is rejected; an open write of 4 bytes at
offset 2 succeeds, extends the size to 6 and marks the upload. -/
theorem writeFile_spec_witness :
    Drive.writeFile 100 false false true
      (some (Node.mk true false true 3 false false)) 2 4 true
      = ⟨0, some (Node.mk true false true 3 false false), false⟩ ∧
    Drive.writeFile 100 false false true
      (some (Node.mk true false true 3 true false)) 2 4 true
      = ⟨4,
         some { Node.mk true false true 3 true false with
                  needUpload := true
                  fileSize := if 2 + 4 > 3 then 2 + 4 else 3 },
         true⟩ :=
  ⟨(writeFile_spec 100 false false true (Node.mk true false true 3 false
      false) 2 4 true).1 rfl,
   (writeFile_spec 100 false false true (Node.mk true false true 3 true
      false) 2 4 true).2 (by decide) (by decide) (by decide) rfl rfl⟩

/-- C8: a `Drive::ReadFile` or `Drive::WriteFile` call whose size exceeds
`GetMaxFileCacheSize()` returns 0 and performs no cache mutation, no
download, no upload scheduling and no node update. -/
theorem size_over_cache_limit_rejected (maxCache : Nat)
    (pathEmpty bufNull doCheck : Bool) (node? : Option Node)
    (modified : Bool) (offset size : Nat)
    (fileContentExist handleOk cacheWriteOk : Bool)
    (hsz : size > maxCache) :
    Drive.readFile maxCache pathEmpty bufNull doCheck node? modified offset
      size fileContentExist handleOk = ⟨0, none, none, false⟩ ∧
    Drive.writeFile maxCache pathEmpty bufNull doCheck node? offset size
      cacheWriteOk = ⟨0, node?, false⟩ := by
  constructor
  · unfold Drive.readFile
    split <;> simp [hsz]
  · unfold Drive.writeFile
    split <;> simp [hsz]

/-- Witness for C8: a request of 5 bytes against a 4-byte cache budget is
rejected by both operations. -/
theorem size_over_cache_limit_rejected_witness :
    Drive.readFile 4 false false false
      (some (Node.mk true false true 9 true false)) false 0 5 false false
      = ⟨0, none, none, false⟩ ∧
    Drive.writeFile 4 false false false
      (some (Node.mk true false true 9 true false)) 0 5 true
      = ⟨0, some (Node.mk true false true 9 true false), false⟩ :=
  size_over_cache_limit_rejected 4 false false false
    (some (Node.mk true false true 9 true false)) false 0 5 false false
    true (by decide)

/-- C6 counterexample: with checking enabled, `Drive::DeleteDir` on a
resident, valid, non-empty directory issues no DELETE even when the
recursive flag is true — the non-empty check rejects the call regardless
of `recursive`, contrary to the claim. -/
theorem deleteDir_recursive_nonempty_counterexample :
    Drive.deleteDir "/d" true true
      (some (Node.mk true true false 0 false false)) = none := by decide

/-- C6 (amended): with checking enabled, `Drive::DeleteDir` on a resident
valid directory rejects the call without any mutation whenever the
directory is non-empty, regardless of the recursive flag; an empty
directory is always deletable, and the asynchronous
`Client::DeleteDirectory` is then issued on the slash-terminated path with
the recursive flag merely forwarded to the client. -/
theorem deleteDir_requires_empty_dir (dirPath : String) (recursive : Bool)
    (n : Node) (hp : dirPath ≠ "") (hv : n.valid = true)
    (hd : n.isDirectory = true) :
    (n.isEmpty = false →
      Drive.deleteDir dirPath recursive true (some n) = none) ∧
    (n.isEmpty = true →
      Drive.deleteDir dirPath recursive true (some n)
        = some (appendPathDelim dirPath, recursive)) := by
  constructor
  · intro he
    simp [Drive.deleteDir, hp, hv, hd, he]
  · intro he
    simp [Drive.deleteDir, hp, hv, hd, he]

/-- Witness for C6: a non-empty directory with `recursive = true` is
rejected and an empty one is deleted, at concrete inputs. -/
theorem deleteDir_requires_empty_dir_witness :
    Drive.deleteDir "/d" true true
      (some (Node.mk true true false 0 false false)) = none ∧
    Drive.deleteDir "/e" true true
      (some (Node.mk true true true 0 false false))
      = some (appendPathDelim "/e", true) :=
  ⟨(deleteDir_requires_empty_dir "/d" true
      (Node.mk true true false 0 false false) (by decide) rfl rfl).1 rfl,
   (deleteDir_requires_empty_dir "/e" true
      (Node.mk true true true 0 false false) (by decide) rfl rfl).2 rfl⟩

/-- C7 failing input: `Drive::MakeFile` with a socket mode
(`S_IFSOCK | 0644`).  Because `S_IFSOCK = 0o140000` contains the
`S_IFREG = 0o100000` bit and the type dispatch tests `mode & S_IFREG`
first, the socket is classified as a regular file: the server-side
`Client::MakeFile` and the asynchronous `Stat` refresh are issued and no
node is grown locally, although the claim (and the source's own dead
`mode & S_IFSOCK` branch) intend sockets to be local-only.  A FIFO mode,
by contrast, is grown locally with no object-store call, as the claim
states. -/
theorem makeFile_socket_failing_input :
    Drive.makeFile "/sock" (S_IFSOCK ||| 0o644) true
      = ⟨true, true, none⟩ ∧
    Drive.makeFile "/fifo" (S_IFIFO ||| 0o644) true
      = ⟨false, false, some FileType.FIFO⟩ := by decide

/-- C9: the `FileMetaData` constructor appends the trailing slash to a
directory path when absent (leaving an already-terminated path unchanged)
and starts the link count at 2; for every other file type the path is
stored unchanged and the link count starts at 1. -/
theorem fileMetaData_ctor_dir_slash_and_links (filePath : String)
    (fileSize : Nat) (atime mtime : Int) (uid gid fileMode : Nat)
    (fileType : FileType) (mimeType eTag : String) (encrypted : Bool)
    (dev : Nat) :
    (fileType = FileType.Directory →
      (FileMetaData.construct filePath fileSize atime mtime uid gid
          fileMode fileType mimeType eTag encrypted dev).filePath
        = appendPathDelim filePath ∧
      pathEndsWithDelim (FileMetaData.construct filePath fileSize atime
          mtime uid gid fileMode fileType mimeType eTag encrypted
          dev).filePath = true ∧
      (FileMetaData.construct filePath fileSize atime mtime uid gid
          fileMode fileType mimeType eTag encrypted dev).numLink = 2) ∧
    (fileType ≠ FileType.Directory →
      (FileMetaData.construct filePath fileSize atime mtime uid gid
          fileMode fileType mimeType eTag encrypted dev).filePath
        = filePath ∧
      (FileMetaData.construct filePath fileSize atime mtime uid gid
          fileMode fileType mimeType eTag encrypted dev).numLink = 1) := by
  constructor
  · intro h
    subst h
    exact ⟨rfl, pathEndsWithDelim_appendPathDelim filePath, rfl⟩
  · intro h
    simp [FileMetaData.construct, h]

/-- Witness for C9: a directory path without the trailing slash gains one
and gets link count 2; a plain file keeps its path and gets link count
1. -/
theorem fileMetaData_ctor_dir_slash_and_links_witness :
    ((FileMetaData.construct "/a" 0 0 0 0 0 0 FileType.Directory "" ""
        false 0).filePath = appendPathDelim "/a" ∧
      pathEndsWithDelim (FileMetaData.construct "/a" 0 0 0 0 0 0
        FileType.Directory "" "" false 0).filePath = true ∧
      (FileMetaData.construct "/a" 0 0 0 0 0 0 FileType.Directory "" ""
        false 0).numLink = 2) ∧
    ((FileMetaData.construct "/b" 0 0 0 0 0 0 FileType.File "" "" false
        0).filePath = "/b" ∧
      (FileMetaData.construct "/b" 0 0 0 0 0 0 FileType.File "" "" false
        0).numLink = 1) :=
  ⟨(fileMetaData_ctor_dir_slash_and_links "/a" 0 0 0 0 0 0
      FileType.Directory "" "" false 0).1 rfl,
   (fileMetaData_ctor_dir_slash_and_links "/b" 0 0 0 0 0 0 FileType.File
      "" "" false 0).2 (by decide)⟩

/-! ## Sequences of WriteFile calls (for the size-monotonicity claim) -/

/-- The per-call parameters of one `Drive::WriteFile` invocation in a
sequence of calls on the same path. -/
structure WriteCall where
  pathEmpty : Bool
  bufNull : Bool
  doCheck : Bool
  offset : Nat
  size : Nat
  cacheWriteOk : Bool
deriving Repr, DecidableEq

/-- The node state after one `Drive::WriteFile` call. -/
def writeStep (maxCache : Nat) (node? : Option Node) (c : WriteCall) :
    Option Node :=
  (Drive.writeFile maxCache c.pathEmpty c.bufNull c.doCheck node? c.offset
    c.size c.cacheWriteOk).node?

/-- The node state after a sequence of `Drive::WriteFile` calls. -/
def writeSeq (maxCache : Nat) (node? : Option Node)
    (cs : List WriteCall) : Option Node :=
  cs.foldl (writeStep maxCache) node?

theorem writeStep_some (maxCache : Nat) (n : Node) (c : WriteCall) :
    ∃ n', writeStep maxCache (some n) c = some n' ∧
      n.fileSize ≤ n'.fileSize ∧
      (n'.fileSize = n.fileSize ∨ n'.fileSize = c.offset + c.size) := by
  by_cases h1 : (c.doCheck && (c.pathEmpty || c.bufNull)) = true
  · exact ⟨n, by simp [writeStep, Drive.writeFile, h1], le_refl _,
      Or.inl rfl⟩
  · by_cases h2 : c.size > maxCache
    · exact ⟨n, by simp [writeStep, Drive.writeFile, h1, h2], le_refl _,
        Or.inl rfl⟩
    · by_cases h3 : (c.doCheck && (!n.valid || n.isDirectory)) = true
      · exact ⟨n, by simp [writeStep, Drive.writeFile, h1, h2, h3],
          le_refl _, Or.inl rfl⟩
      · by_cases h4 : n.fileOpen = true
        · by_cases h5 : c.cacheWriteOk = true
          · by_cases h6 : c.offset + c.size > n.fileSize
            · refine ⟨{ n with
                          needUpload := true
                          fileSize := c.offset + c.size }, ?_, ?_,
                Or.inr rfl⟩
              · simp [writeStep, Drive.writeFile, h1, h2, h3, h4, h5, h6]
              · show n.fileSize ≤ c.offset + c.size
                omega
            · refine ⟨{ n with
                          needUpload := true
                          fileSize := n.fileSize }, ?_, le_refl _,
                Or.inl rfl⟩
              simp [writeStep, Drive.writeFile, h1, h2, h3, h4, h5, h6]
          · exact ⟨n, by simp [writeStep, Drive.writeFile, h1, h2, h3, h4,
              h5], le_refl _, Or.inl rfl⟩
        · exact ⟨n, by simp [writeStep, Drive.writeFile, h1, h2, h3, h4],
            le_refl _, Or.inl rfl⟩

/-- Across a sequence of `Drive::WriteFile` calls the node stays resident
and its recorded size never decreases. -/
theorem writeSeq_some (maxCache : Nat) (cs : List WriteCall) (n : Node) :
    ∃ n', writeSeq maxCache (some n) cs = some n' ∧
      n.fileSize ≤ n'.fileSize := by
  induction cs generalizing n with
  | nil => exact ⟨n, rfl, le_refl _⟩
  | cons c cs ih =>
    obtain ⟨n1, h1, hle1, -⟩ := writeStep_some maxCache n c
    obtain ⟨n2, h2, hle2⟩ := ih n1
    refine ⟨n2, ?_, le_trans hle1 hle2⟩
    unfold writeSeq at h2 ⊢
    rw [List.foldl_cons, h1]
    exact h2

/-- C10: the node's recorded file size is monotone non-decreasing under
`Drive::WriteFile`: a single call either leaves the size unchanged or
raises it to `offset + size`, and across any sequence of calls on the path
the size never decreases. -/
theorem writeFile_size_monotone (maxCache : Nat) (n : Node)
    (cs : List WriteCall) :
    (∀ c : WriteCall, ∃ n', writeStep maxCache (some n) c = some n' ∧
        n.fileSize ≤ n'.fileSize ∧
        (n'.fileSize = n.fileSize ∨ n'.fileSize = c.offset + c.size)) ∧
    (∃ n', writeSeq maxCache (some n) cs = some n' ∧
        n.fileSize ≤ n'.fileSize) :=
  ⟨fun c => writeStep_some maxCache n c, writeSeq_some maxCache cs n⟩

/-- Witness for C10 (the theorem's statement is hypothesis-free; this
instantiates it at a concrete two-call sequence). -/
theorem writeFile_size_monotone_witness :
    ∃ n', writeSeq 100
        (some (Node.mk true false true 3 true false))
        [WriteCall.mk false false false 0 8 true,
         WriteCall.mk false false false 0 2 true] = some n' ∧
      3 ≤ n'.fileSize :=
  (writeFile_size_monotone 100 (Node.mk true false true 3 true false)
    [WriteCall.mk false false false 0 8 true,
     WriteCall.mk false false false 0 2 true]).2
